import Mathlib

/-!
Shallow embedding of src/src/gba/gba-gpio.c (cartridge GPIO bus of the mGBA
emulator): the GPIO register interface, the RTC, gyro, rumble, light-sensor
and tilt devices, and the save-state serializer.

Machine integers are modelled as Nat with explicit truncation where the C
code stores into a fixed-width field (uint16_t stores are taken mod 2^16,
uint8_t stores mod 2^8).  Signed C `int` fields that can go negative
(`bytesRemaining`) are modelled as Int.  The companion header gba-gpio.h is
not part of src/, so the field widths, the register offsets (spec section 6:
offsets 0, 1, 2), the device bit-mask values, and the RTC command-byte
layout (spec section 9: magic in the high nibble, command index in bits
1..3, reading flag in bit 0) are modelled from the spec.  Logging calls
(GBALog) have no effect on any modelled state and are dropped.
-/

/-- Modelled from the spec: broken-down local time as produced by
localtime in rtcUpdateClock (the host time source itself is out of
scope).  Fields mirror struct tm: year is years since 1900, mon is
0-based. -/
structure GBATM where
  year : Nat
  mon : Nat
  mday : Nat
  wday : Nat
  hour : Nat
  minute : Nat
  sec : Nat
deriving DecidableEq, Repr

/-- Modelled from the spec: the host rotation source capability.  The
readTiltX and readTiltY operations may be absent independently of
readGyroZ, which the bus checks before calling. -/
structure GBARotationSource where
  gyroZ : Int
  tiltXVal : Option Int
  tiltYVal : Option Int
deriving DecidableEq, Repr

/-- Modelled from the spec: the slice of the parent GBA structure the GPIO
code reaches through gpio->p, namely the optional host capabilities.  The
rumble sink is modelled as an optional cell holding the last level written
through setRumble.  hostTime is the broken-down local time that
rtcUpdateClock would obtain from the time source (or the wall clock). -/
structure GBA where
  hostTime : GBATM
  rotationSource : Option GBARotationSource
  rumble : Option Nat
  luminanceSource : Option Nat
deriving DecidableEq, Repr

/-- RTCCommandData: the decoded RTC command byte.  Modelled from the spec
(section 9): magic is the high nibble, command the 3-bit index in bits
1..3, reading the flag in bit 0. -/
structure RTCCommandData where
  magic : Nat
  command : Nat
  reading : Nat
deriving DecidableEq, Repr

/-- struct GBARTC: the clock state machine. bytesRemaining is a C int and
is decremented below zero transiently, hence Int. -/
structure GBARTC where
  bytesRemaining : Int
  transferStep : Nat
  bitsRead : Nat
  bits : Nat
  commandActive : Nat
  command : RTCCommandData
  control : Nat
  time : List Nat
deriving DecidableEq, Repr

/-- struct GBACartridgeGPIO.  gpioBase is the pointed-to memory-mapped
register word gpioBase[0] (the published word). -/
structure GBACartridgeGPIO where
  p : GBA
  gpioDevices : Nat
  readWrite : Nat
  gpioBase : Nat
  pinState : Nat
  direction : Nat
  rtc : GBARTC
  gyroSample : Nat
  gyroEdge : Nat
  tiltX : Nat
  tiltY : Nat
  tiltState : Nat
  lightCounter : Nat
  lightSample : Nat
  lightEdge : Bool
deriving DecidableEq, Repr

/-- The GPIO slice of struct GBASerializedState, with the fields
GBAGPIOSerialize writes, in source order. -/
structure GBASerializedGPIO where
  readWrite : Nat
  pinState : Nat
  pinDirection : Nat
  devices : Nat
  rtc : GBARTC
  gyroSample : Nat
  gyroEdge : Nat
  tiltSampleX : Nat
  tiltSampleY : Nat
  tiltState : Nat
  lightCounter : Nat
  lightSample : Nat
  lightEdge : Bool
deriving DecidableEq, Repr

/-- GPIO_NONE device flag. -/
def GPIO_NONE : Nat := 0

/-- GPIO_RTC device flag (modelled from the spec: a bit-set of attached
devices; the concrete bit values are not observable). -/
def GPIO_RTC : Nat := 1

/-- GPIO_RUMBLE device flag. -/
def GPIO_RUMBLE : Nat := 2

/-- GPIO_LIGHT_SENSOR device flag. -/
def GPIO_LIGHT_SENSOR : Nat := 4

/-- GPIO_GYRO device flag. -/
def GPIO_GYRO : Nat := 8

/-- GPIO_TILT device flag. -/
def GPIO_TILT : Nat := 16

/-- GPIO_REG_DATA register offset (modelled from the spec: offset 0). -/
def GPIO_REG_DATA : Nat := 0

/-- GPIO_REG_DIRECTION register offset (modelled from the spec: offset 1). -/
def GPIO_REG_DIRECTION : Nat := 1

/-- GPIO_REG_CONTROL register offset (modelled from the spec: offset 2). -/
def GPIO_REG_CONTROL : Nat := 2

/-- RTC_RESET command index. -/
def RTC_RESET : Nat := 0

/-- RTC_DATETIME command index. -/
def RTC_DATETIME : Nat := 2

/-- RTC_FORCE_IRQ command index. -/
def RTC_FORCE_IRQ : Nat := 3

/-- RTC_CONTROL command index. -/
def RTC_CONTROL : Nat := 4

/-- RTC_TIME command index. -/
def RTC_TIME : Nat := 6

/-- static const int RTC_BYTES[8]: payload byte count per command index. -/
def RTC_BYTES : List Int := [0, 0, 7, 0, 1, 0, 3, 0]

/-- RTC_BYTES lookup, as the C array indexing RTC_BYTES[i]. -/
def rtcBytes (i : Nat) : Int := RTC_BYTES.getD i 0

/-- Bitwise complement on the 16-bit window: the value of
(uint16_t) (x & ~d) masking, used for the C expressions involving
~direction, whose operands are 16-bit registers. -/
def compl16 (d : Nat) : Nat := 65535 ^^^ (d &&& 65535)

/-- The two-instruction C idiom bits &= ~(1 << j); bits |= v << j, that
is, overwrite bit j of b with value v.  Since b is a nonnegative int,
clearing bit j equals subtracting the j-th bit if present. -/
def setBitVal (b j v : Nat) : Nat := (b - (b &&& (1 <<< j))) ||| (v <<< j)

/-- Pin accessor p0 (bitfield bit 0 of pinState). -/
def GBACartridgeGPIO.p0 (g : GBACartridgeGPIO) : Nat := g.pinState &&& 1

/-- Pin accessor p1 (bitfield bit 1 of pinState). -/
def GBACartridgeGPIO.p1 (g : GBACartridgeGPIO) : Nat := (g.pinState >>> 1) &&& 1

/-- Pin accessor p2 (bitfield bit 2 of pinState). -/
def GBACartridgeGPIO.p2 (g : GBACartridgeGPIO) : Nat := (g.pinState >>> 2) &&& 1

/-- Pin accessor p3 (bitfield bit 3 of pinState). -/
def GBACartridgeGPIO.p3 (g : GBACartridgeGPIO) : Nat := (g.pinState >>> 3) &&& 1

/-- Direction accessor dir1 (bitfield bit 1 of direction). -/
def GBACartridgeGPIO.dir1 (g : GBACartridgeGPIO) : Nat := (g.direction >>> 1) &&& 1

/-- GBAGPIOClear.  The source assigns GPIO_WRITE_ONLY (value 0) to the
direction field and then assigns 0 to it again; the readWrite field is
left untouched. -/
def GBAGPIOClear (g : GBACartridgeGPIO) : GBACartridgeGPIO :=
  { g with gpioDevices := GPIO_NONE, pinState := 0, direction := 0 }

/-- GBAGPIOInit: record the base pointer (here, the current published
word it points at) and clear. -/
def GBAGPIOInit (g : GBACartridgeGPIO) (base : Nat) : GBACartridgeGPIO :=
  GBAGPIOClear { g with gpioBase := base }

/-- GBAGPIOInitRTC. -/
def GBAGPIOInitRTC (g : GBACartridgeGPIO) : GBACartridgeGPIO :=
  { g with gpioDevices := g.gpioDevices ||| GPIO_RTC,
           rtc := { bytesRemaining := 0, transferStep := 0, bitsRead := 0, bits := 0,
                    commandActive := 0, command := ⟨0, 0, 0⟩, control := 0x40,
                    time := [0, 0, 0, 0, 0, 0, 0] } }

/-- GBAGPIOInitGyro. -/
def GBAGPIOInitGyro (g : GBACartridgeGPIO) : GBACartridgeGPIO :=
  { g with gpioDevices := g.gpioDevices ||| GPIO_GYRO, gyroSample := 0, gyroEdge := 0 }

/-- GBAGPIOInitRumble. -/
def GBAGPIOInitRumble (g : GBACartridgeGPIO) : GBACartridgeGPIO :=
  { g with gpioDevices := g.gpioDevices ||| GPIO_RUMBLE }

/-- GBAGPIOInitLightSensor. -/
def GBAGPIOInitLightSensor (g : GBACartridgeGPIO) : GBACartridgeGPIO :=
  { g with gpioDevices := g.gpioDevices ||| GPIO_LIGHT_SENSOR,
           lightCounter := 0, lightEdge := false, lightSample := 0xFF }

/-- GBAGPIOInitTilt. -/
def GBAGPIOInitTilt (g : GBACartridgeGPIO) : GBACartridgeGPIO :=
  { g with gpioDevices := g.gpioDevices ||| GPIO_TILT,
           tiltX := 0xFFF, tiltY := 0xFFF, tiltState := 0 }

/-- The output helper: a device proposes 4 bits; with readWrite on, keep
the direction-masked bits of the live register, overlay the proposed
device-driven bits, store the result as the new pinState and publish it.
With readWrite off, do nothing. -/
def outputPins (g : GBACartridgeGPIO) (pins : Nat) : GBACartridgeGPIO :=
  if g.readWrite ≠ 0 then
    let old := g.gpioBase &&& g.direction
    let ps := old ||| (pins &&& compl16 g.direction &&& 0xF)
    { g with pinState := ps, gpioBase := ps }
  else g

/-- The rtcBCD helper: pack value mod 100 as two BCD digits. -/
def rtcBCD (value : Nat) : Nat := value % 10 + ((value / 10) % 10) <<< 4

/-- The rtcUpdateClock helper: latch the broken-down host time into the
BCD time array.  The detour through the optional time source and
localtime is collapsed into reading the hostTime the environment
provides (both C paths end in the same broken-down time). -/
def rtcUpdateClock (g : GBACartridgeGPIO) : GBACartridgeGPIO :=
  let d := g.p.hostTime
  let hourByte := if (g.rtc.control >>> 6) &&& 1 ≠ 0 then rtcBCD d.hour else rtcBCD (d.hour % 12)
  { g with rtc.time := [rtcBCD (d.year - 100), rtcBCD (d.mon + 1), rtcBCD d.mday,
                        rtcBCD d.wday, hourByte, rtcBCD d.minute, rtcBCD d.sec] }

/-- Stage of rtcProcessByte: the unconditional entry decrement of
bytesRemaining. -/
def rtcDecByte (g : GBACartridgeGPIO) : GBACartridgeGPIO :=
  { g with rtc.bytesRemaining := g.rtc.bytesRemaining - 1 }

/-- Stage of rtcProcessByte, header path: store the decoded command, load
bytesRemaining from the command table and derive commandActive from it. -/
def rtcHeaderSet (g : GBACartridgeGPIO) (cmd : RTCCommandData) : GBACartridgeGPIO :=
  { g with rtc.command := cmd, rtc.bytesRemaining := rtcBytes cmd.command,
           rtc.commandActive := if 0 < rtcBytes cmd.command then 1 else 0 }

/-- Stage of rtcProcessByte, header path: the per-command immediate side
effects (RESET clears control; DATETIME and TIME latch the clock). -/
def rtcHeaderEffects (g : GBACartridgeGPIO) : GBACartridgeGPIO :=
  if g.rtc.command.command = RTC_RESET then { g with rtc.control := 0 }
  else if g.rtc.command.command = RTC_DATETIME ∨ g.rtc.command.command = RTC_TIME then
    rtcUpdateClock g
  else g

/-- Stage of rtcProcessByte: decode the assembled byte as a command
header; a byte whose high nibble is not 0x6 only logs a warning. -/
def rtcDecodeHeader (g : GBACartridgeGPIO) : GBACartridgeGPIO :=
  if (g.rtc.bits >>> 4) &&& 15 = 0x06 then
    rtcHeaderEffects (rtcHeaderSet g
      ⟨(g.rtc.bits >>> 4) &&& 15, (g.rtc.bits >>> 1) &&& 7, g.rtc.bits &&& 1⟩)
  else g

/-- Stage of rtcProcessByte: consume a payload byte of the active command
(only CONTROL stores it; FORCE_IRQ logs a stub notice). -/
def rtcPayload (g : GBACartridgeGPIO) : GBACartridgeGPIO :=
  if g.rtc.command.command = RTC_CONTROL then { g with rtc.control := g.rtc.bits % 256 }
  else g

/-- Stage of rtcProcessByte: the closing statements, after bits and
bitsRead were reset: when no payload bytes remain, deactivate the
command and clear its reading flag. -/
def rtcByteTail (g : GBACartridgeGPIO) : GBACartridgeGPIO :=
  if g.rtc.bytesRemaining = 0 then
    { g with rtc.commandActive := 0, rtc.command.reading := 0 }
  else g

/-- The rtcProcessByte state machine step: consume the assembled byte in
rtc.bits, either decoding it as a command header or treating it as
payload of the active command; the stages follow the statement order of
the source. -/
def rtcProcessByte (g : GBACartridgeGPIO) : GBACartridgeGPIO :=
  let g1 := rtcDecByte g
  let g2 := if g1.rtc.commandActive = 0 then rtcDecodeHeader g1 else rtcPayload g1
  rtcByteTail { g2 with rtc.bits := 0, rtc.bitsRead := 0 }

/-- The rtcOutput function: select the output byte for the active command
and return its bit number bitsRead. -/
def rtcOutput (g : GBACartridgeGPIO) : Nat :=
  let outputByte : Nat :=
    if g.rtc.command.command = RTC_CONTROL then g.rtc.control % 256
    else if g.rtc.command.command = RTC_DATETIME ∨ g.rtc.command.command = RTC_TIME then
      (g.rtc.time.getD (7 - g.rtc.bytesRemaining).toNat 0) % 256
    else 0
  (outputByte >>> g.rtc.bitsRead) &&& 1

/-- Stage of rtcReadPins: the increment of bitsRead on a rising clock. -/
def rtcIncBits (g : GBACartridgeGPIO) : GBACartridgeGPIO :=
  { g with rtc.bitsRead := g.rtc.bitsRead + 1 }

/-- Stage of rtcReadPins, writing direction: after the 8th bit, process
the assembled byte. -/
def rtcWriteByteEnd (g : GBACartridgeGPIO) : GBACartridgeGPIO :=
  if g.rtc.bitsRead = 8 then rtcProcessByte g else g

/-- Stage of rtcReadPins, reading direction, after the 8th bit: when no
payload bytes remain after the decrement, deactivate the command and
clear its reading flag. -/
def rtcReadDone (g : GBACartridgeGPIO) : GBACartridgeGPIO :=
  if g.rtc.bytesRemaining ≤ 0 then
    { g with rtc.commandActive := 0, rtc.command.reading := 0 }
  else g

/-- Stage of rtcReadPins, reading direction: after the 8th bit, count the
byte off and reset the bit counter. -/
def rtcReadByteEnd (g : GBACartridgeGPIO) : GBACartridgeGPIO :=
  if g.rtc.bitsRead = 8 then
    { rtcReadDone { g with rtc.bytesRemaining := g.rtc.bytesRemaining - 1 } with
      rtc.bitsRead := 0 }
  else g

/-- Stage of rtcReadPins: the step-2 bit transfer, split on clock level,
chip select and the direction of the data pin. -/
def rtcStep2 (g : GBACartridgeGPIO) : GBACartridgeGPIO :=
  if g.p0 = 0 then
    { g with rtc.bits := setBitVal g.rtc.bits g.rtc.bitsRead g.p1 }
  else
    if g.p2 ≠ 0 then
      if g.dir1 ≠ 0 then
        rtcWriteByteEnd (rtcIncBits g)
      else
        rtcReadByteEnd (rtcIncBits (outputPins g (5 ||| (rtcOutput g <<< 1))))
    else
      { g with rtc.bitsRead := 0, rtc.bytesRemaining := 0, rtc.commandActive := 0,
               rtc.command.reading := 0, rtc.transferStep := 0 }

/-- The rtcReadPins transfer state machine, stepped on every bus update. -/
def rtcReadPins (g : GBACartridgeGPIO) : GBACartridgeGPIO :=
  if g.rtc.transferStep = 0 then
    if g.pinState &&& 5 = 1 then { g with rtc.transferStep := 1 } else g
  else if g.rtc.transferStep = 1 then
    if g.pinState &&& 5 = 5 then { g with rtc.transferStep := 2 } else g
  else if g.rtc.transferStep = 2 then rtcStep2 g
  else g

/-- Stage of gyroReadPins: while p0 is high, latch a fresh compressed Z
sample.  The arithmetic right shift by 21 of the signed 32-bit sample is
floor division by 2^21, and the uint16_t store truncates mod 2^16. -/
def gyroLatch (g : GBACartridgeGPIO) (gyro : GBARotationSource) : GBACartridgeGPIO :=
  if g.p0 ≠ 0 then
    { g with gyroSample := ((gyro.gyroZ.fdiv 2097152 + 0x6C0) % 65536).toNat }
  else g

/-- Stage of gyroReadPins: on a falling edge of p1, emit the top bit of
the sample on pin 2 and shift the sample left (the emitted bit is read
before the shift). -/
def gyroShift (g : GBACartridgeGPIO) : GBACartridgeGPIO :=
  if g.gyroEdge ≠ 0 ∧ g.p1 = 0 then
    outputPins { g with gyroSample := (g.gyroSample <<< 1) % 65536 }
      ((g.gyroSample >>> 15) <<< 2)
  else g

/-- Stage of gyroReadPins: remember the level of p1 for the next edge
detection. -/
def gyroSetEdge (g : GBACartridgeGPIO) : GBACartridgeGPIO :=
  { g with gyroEdge := g.p1 }

/-- The gyroReadPins observer: without a rotation source the device is
silent; otherwise latch, shift on a falling edge, and track the edge. -/
def gyroReadPins (g : GBACartridgeGPIO) : GBACartridgeGPIO :=
  match g.p.rotationSource with
  | none => g
  | some gyro => gyroSetEdge (gyroShift (gyroLatch g gyro))

/-- The rumbleReadPins observer: forward the level of pin 3 to the rumble
sink when one is installed. -/
def rumbleReadPins (g : GBACartridgeGPIO) : GBACartridgeGPIO :=
  match g.p.rumble with
  | none => g
  | some _ => { g with p.rumble := some g.p3 }

/-- Stage of lightReadPins: on p1 high, zero the counter and latch a
fresh luminance sample (0xFF without a source); counter and sample are
u8 fields (spec section 3), so stores truncate mod 256. -/
def lightReset (g : GBACartridgeGPIO) : GBACartridgeGPIO :=
  if g.p1 ≠ 0 then
    { g with lightCounter := 0,
             lightSample := match g.p.luminanceSource with
                            | some lux => lux % 256
                            | none => 0xFF }
  else g

/-- Stage of lightReadPins: count a rising edge of p0. -/
def lightCount (g : GBACartridgeGPIO) : GBACartridgeGPIO :=
  if g.p0 ≠ 0 ∧ g.lightEdge then { g with lightCounter := (g.lightCounter + 1) % 256 }
  else g

/-- Stage of lightReadPins: remember the inverted level of p0 for the
next edge detection. -/
def lightSetEdge (g : GBACartridgeGPIO) : GBACartridgeGPIO :=
  { g with lightEdge := g.p0 = 0 }

/-- Stage of lightReadPins: propose pin 3 high exactly when the counter
has reached the latched sample. -/
def lightSend (g : GBACartridgeGPIO) : GBACartridgeGPIO :=
  outputPins g ((if g.lightSample ≤ g.lightCounter then 1 else 0) <<< 3)

/-- The lightReadPins state machine: with chip select high the device
ignores the update; otherwise reset and latch on p1, count rising edges
of p0, and propose the comparison result on pin 3. -/
def lightReadPins (g : GBACartridgeGPIO) : GBACartridgeGPIO :=
  if g.p2 ≠ 0 then g
  else lightSend (lightSetEdge (lightCount (lightReset g)))

/-- Dispatch stage: notify the RTC when attached. -/
def rtcDispatch (g : GBACartridgeGPIO) : GBACartridgeGPIO :=
  if g.gpioDevices &&& GPIO_RTC ≠ 0 then rtcReadPins g else g

/-- Dispatch stage: notify the gyro when attached. -/
def gyroDispatch (g : GBACartridgeGPIO) : GBACartridgeGPIO :=
  if g.gpioDevices &&& GPIO_GYRO ≠ 0 then gyroReadPins g else g

/-- Dispatch stage: notify the rumble pack when attached. -/
def rumbleDispatch (g : GBACartridgeGPIO) : GBACartridgeGPIO :=
  if g.gpioDevices &&& GPIO_RUMBLE ≠ 0 then rumbleReadPins g else g

/-- Dispatch stage: notify the light sensor when attached. -/
def lightDispatch (g : GBACartridgeGPIO) : GBACartridgeGPIO :=
  if g.gpioDevices &&& GPIO_LIGHT_SENSOR ≠ 0 then lightReadPins g else g

/-- The readPins dispatcher: notify each attached device in the fixed
order RTC, gyro, rumble, light sensor. -/
def readPins (g : GBACartridgeGPIO) : GBACartridgeGPIO :=
  lightDispatch (rumbleDispatch (gyroDispatch (rtcDispatch g)))

/-- The publish epilogue shared by every GBAGPIOWrite branch: with
readWrite on, overlay pinState onto the direction-complement-masked old
word; with readWrite off, publish 0. -/
def gpioEpilogue (g : GBACartridgeGPIO) : GBACartridgeGPIO :=
  if g.readWrite ≠ 0 then
    { g with gpioBase := (g.gpioBase &&& compl16 g.direction) ||| g.pinState }
  else
    { g with gpioBase := 0 }

/-- The register dispatch of GBAGPIOWrite, before the shared publish
epilogue; value is already truncated to 16 bits.  A write to an unknown
offset only logs a warning. -/
def gpioWriteReg (g : GBACartridgeGPIO) (address value : Nat) : GBACartridgeGPIO :=
  if address = GPIO_REG_DATA then
    readPins { g with pinState := (g.pinState &&& compl16 g.direction) ||| value }
  else if address = GPIO_REG_DIRECTION then { g with direction := value }
  else if address = GPIO_REG_CONTROL then { g with readWrite := value }
  else g

/-- GBAGPIOWrite: the register write entry point.  The value parameter is
a uint16_t, truncated by the call; every branch falls through to the
publish epilogue. -/
def GBAGPIOWrite (g : GBACartridgeGPIO) (address : Nat) (value : Nat) : GBACartridgeGPIO :=
  gpioEpilogue (gpioWriteReg g address (value &&& 65535))

/-- GBAGPIOTiltWrite: the byte-addressed tilt window write protocol.  The
value parameter is a uint8_t.  The compressed samples are stored through
the same floor-division-by-2^21 arithmetic shift as the gyro. -/
def GBAGPIOTiltWrite (g : GBACartridgeGPIO) (address : Nat) (value : Nat) : GBACartridgeGPIO :=
  let value := value &&& 255
  if address = 0x8000 then
    if value = 0x55 then { g with tiltState := 1 } else g
  else if address = 0x8100 then
    if value = 0xAA ∧ g.tiltState = 1 then
      let g : GBACartridgeGPIO := { g with tiltState := 0 }
      match g.p.rotationSource with
      | none => g
      | some rot =>
        match rot.tiltXVal, rot.tiltYVal with
        | some x, some y =>
          { g with tiltX := ((x.fdiv 2097152 + 0x3A0) % 65536).toNat,
                   tiltY := ((y.fdiv 2097152 + 0x3A0) % 65536).toNat }
        | _, _ => g
    else g
  else g

/-- GBAGPIOTiltRead: the four tilt read addresses; anything else returns
0xFF. -/
def GBAGPIOTiltRead (g : GBACartridgeGPIO) (address : Nat) : Nat :=
  if address = 0x8200 then g.tiltX &&& 0xFF
  else if address = 0x8300 then ((g.tiltX >>> 8) &&& 0xF) ||| 0x80
  else if address = 0x8400 then g.tiltY &&& 0xFF
  else if address = 0x8500 then (g.tiltY >>> 8) &&& 0xF
  else 0xFF

/-- GBAGPIOSerialize: snapshot every GPIO field into the serialized
record, in source order. -/
def GBAGPIOSerialize (g : GBACartridgeGPIO) : GBASerializedGPIO :=
  { readWrite := g.readWrite, pinState := g.pinState, pinDirection := g.direction,
    devices := g.gpioDevices, rtc := g.rtc, gyroSample := g.gyroSample,
    gyroEdge := g.gyroEdge, tiltSampleX := g.tiltX, tiltSampleY := g.tiltY,
    tiltState := g.tiltState, lightCounter := g.lightCounter,
    lightSample := g.lightSample, lightEdge := g.lightEdge }

/-- GBAGPIODeserialize: restore every field the source restores; the
devices field of the snapshot is never read, and neither the gpioBase
pointer nor the published word it points at is touched. -/
def GBAGPIODeserialize (g : GBACartridgeGPIO) (state : GBASerializedGPIO) : GBACartridgeGPIO :=
  { g with readWrite := state.readWrite, pinState := state.pinState,
           direction := state.pinDirection, rtc := state.rtc,
           gyroSample := state.gyroSample, gyroEdge := state.gyroEdge,
           tiltX := state.tiltSampleX, tiltY := state.tiltSampleY,
           tiltState := state.tiltState, lightCounter := state.lightCounter,
           lightSample := state.lightSample, lightEdge := state.lightEdge }

/-- A zeroed environment with no host capabilities installed. -/
def emptyGBA : GBA :=
  { hostTime := ⟨0, 0, 0, 0, 0, 0, 0⟩, rotationSource := none, rumble := none,
    luminanceSource := none }

/-- A zeroed GPIO bus state, as a calloc-ed GBA would hold before
GBAGPIOInit runs. -/
def zeroGPIO : GBACartridgeGPIO :=
  { p := emptyGBA, gpioDevices := 0, readWrite := 0, gpioBase := 0, pinState := 0,
    direction := 0,
    rtc := { bytesRemaining := 0, transferStep := 0, bitsRead := 0, bits := 0,
             commandActive := 0, command := ⟨0, 0, 0⟩, control := 0,
             time := [0, 0, 0, 0, 0, 0, 0] },
    gyroSample := 0, gyroEdge := 0, tiltX := 0, tiltY := 0, tiltState := 0,
    lightCounter := 0, lightSample := 0, lightEdge := false }

/-- A sequence of GPIO register writes applied in order. -/
def runWrites (ops : List (Nat × Nat)) (g : GBACartridgeGPIO) : GBACartridgeGPIO :=
  ops.foldl (fun g av => GBAGPIOWrite g av.1 av.2) g

/-- The visibility invariant of the published word: whenever readWrite is
off, the memory-mapped register word is 0. -/
def visInv (g : GBACartridgeGPIO) : Prop := g.readWrite = 0 → g.gpioBase = 0

/-- One reading-direction RTC clock tick as the CPU drives it: a DATA
write with SCK low, CS high (value 4), then a DATA write with SCK high,
CS high (value 5); the data pin 1 is device-driven. -/
def tickR (g : GBACartridgeGPIO) : GBACartridgeGPIO :=
  GBAGPIOWrite (GBAGPIOWrite g GPIO_REG_DATA 4) GPIO_REG_DATA 5

/-- The data bit the CPU observes on the published word after a clock
tick: bit 1 of the memory-mapped register. -/
def obsBit (g : GBACartridgeGPIO) : Nat := (g.gpioBase >>> 1) &&& 1

/-- Run n reading-direction clock ticks and collect the observed data
bit after each one. -/
def readRun : Nat → GBACartridgeGPIO → List Nat
  | 0, _ => []
  | n + 1, g =>
    let g := tickR g
    obsBit g :: readRun n g

/-- A parametric bus state in the middle of an RTC transfer: RTC
attached, readWrite on, transfer step 2, with the published word, the
pin state, the pin directions and the whole clock state given as
parameters. -/
def rtcBus (w ps dir : Nat) (r : Int) (j b ca : Nat) (cmd : RTCCommandData) (ctl : Nat)
    (t : List Nat) : GBACartridgeGPIO :=
  { zeroGPIO with
    gpioDevices := GPIO_RTC, readWrite := 1, direction := dir,
    pinState := ps, gpioBase := w,
    rtc := { bytesRemaining := r, transferStep := 2, bitsRead := j, bits := b,
             commandActive := ca, command := cmd, control := ctl, time := t } }

/-- The eight bits of a byte, least significant first, as the RTC shifts
them out. -/
def bitsLE (b : Nat) : List Nat :=
  [(b >>> 0) &&& 1, (b >>> 1) &&& 1, (b >>> 2) &&& 1, (b >>> 3) &&& 1,
   (b >>> 4) &&& 1, (b >>> 5) &&& 1, (b >>> 6) &&& 1, (b >>> 7) &&& 1]

/-- One writing-direction RTC clock tick carrying data bit d from the
CPU: a DATA write with SCK low, DATA = d, CS high, then the same with
SCK high. -/
def tickW (d : Nat) (g : GBACartridgeGPIO) : GBACartridgeGPIO :=
  GBAGPIOWrite (GBAGPIOWrite g GPIO_REG_DATA (4 ||| (d <<< 1))) GPIO_REG_DATA (5 ||| (d <<< 1))

/-- A full 8-bit writing-direction byte exchange, bits supplied least
significant first by fb. -/
def exchangeW (fb : Nat → Nat) (g : GBACartridgeGPIO) : GBACartridgeGPIO :=
  tickW (fb 7) (tickW (fb 6) (tickW (fb 5) (tickW (fb 4) (tickW (fb 3) (tickW (fb 2)
    (tickW (fb 1) (tickW (fb 0) g)))))))

/-- The bus state right after a command header with index i and reading
flag rd has been processed: the byte counter holds the command table
entry, the activity flag is set iff that entry is nonzero, and the
reading flag was cleared again if the entry is zero. -/
def postHdr (i rd : Nat) (ctl : Nat) (t : List Nat) (w : Nat) : GBACartridgeGPIO :=
  rtcBus w 5 7 (rtcBytes i) 0 0 (if 0 < rtcBytes i then 1 else 0)
    ⟨6, i, if rtcBytes i = 0 then 0 else rd⟩ ctl t

/-- An idle step-2 bus state with the RTC attached and no active
command, about to receive a command header in writing direction. -/
def preHdr : GBACartridgeGPIO :=
  rtcBus 5 5 7 0 0 0 0 ⟨0, 0, 0⟩ 0x40 [0, 0, 0, 0, 0, 0, 0]

/-- Run n writing-direction byte exchanges, byte m carrying the bits
f m 0 .. f m 7. -/
def exchRun (f : Nat → Nat → Nat) : Nat → GBACartridgeGPIO → GBACartridgeGPIO
  | 0, g => g
  | n + 1, g => exchangeW (f n) (exchRun f n g)

/-- A light-sensor bus state between bus updates: luminance source
installed with value s, sample latched (mod 256), counter at c,
direction 7, readWrite on, a bus update just completed with the clock
pin low (so lightEdge is set), and e the current level of the published
word and pin state (pin 3 carries the last comparison result, so e is 0
or 8). -/
def lightState (s c e : Nat) : GBACartridgeGPIO :=
  { zeroGPIO with
    p.luminanceSource := some s,
    gpioDevices := GPIO_LIGHT_SENSOR, readWrite := 1, direction := 7,
    pinState := e, gpioBase := e,
    lightCounter := c, lightSample := s % 256, lightEdge := true }

/-- The light-sensor setup sequence from a cleared bus: attach the
sensor, set direction 7 and visibility on, then pulse RESET (pin 1)
with CS low to latch a sample. -/
def lightStart (s : Nat) : GBACartridgeGPIO :=
  GBAGPIOWrite (GBAGPIOWrite (GBAGPIOWrite
    (GBAGPIOInitLightSensor (GBAGPIOInit { zeroGPIO with p.luminanceSource := some s } 0))
    GPIO_REG_DIRECTION 7) GPIO_REG_CONTROL 1) GPIO_REG_DATA 2

/-- One light-sensor clock tick: pulse pin 0 high then low, with CS and
RESET low. -/
def lightTick (g : GBACartridgeGPIO) : GBACartridgeGPIO :=
  GBAGPIOWrite (GBAGPIOWrite g GPIO_REG_DATA 1) GPIO_REG_DATA 0

/-- Run k light-sensor clock ticks. -/
def lightRun : Nat → GBACartridgeGPIO → GBACartridgeGPIO
  | 0, g => g
  | n + 1, g => lightRun n (lightTick g)

/-- Literal folding for the bitwise and operator is unavailable in this
toolchain, so the finitely many literal mask values appearing in the
pin-level computations are provided as one bundle of rewrite rules. -/
theorem landLits :
    ((0 &&& 2 : Nat) = 0) ∧
    ((0 &&& 4 : Nat) = 0) ∧
    ((0 &&& 5 : Nat) = 0) ∧
    ((0 &&& 6 : Nat) = 0) ∧
    ((0 &&& 7 : Nat) = 0) ∧
    ((0 &&& 8 : Nat) = 0) ∧
    ((0 &&& 10 : Nat) = 0) ∧
    ((0 &&& 15 : Nat) = 0) ∧
    ((0 &&& 65528 : Nat) = 0) ∧
    ((0 &&& 65530 : Nat) = 0) ∧
    ((0 &&& 65535 : Nat) = 0) ∧
    ((1 &&& 2 : Nat) = 0) ∧
    ((1 &&& 4 : Nat) = 0) ∧
    ((1 &&& 5 : Nat) = 1) ∧
    ((1 &&& 6 : Nat) = 0) ∧
    ((1 &&& 7 : Nat) = 1) ∧
    ((1 &&& 8 : Nat) = 0) ∧
    ((1 &&& 10 : Nat) = 0) ∧
    ((1 &&& 15 : Nat) = 1) ∧
    ((1 &&& 65528 : Nat) = 0) ∧
    ((1 &&& 65530 : Nat) = 0) ∧
    ((1 &&& 65535 : Nat) = 1) ∧
    ((2 &&& 2 : Nat) = 2) ∧
    ((2 &&& 4 : Nat) = 0) ∧
    ((2 &&& 5 : Nat) = 0) ∧
    ((2 &&& 6 : Nat) = 2) ∧
    ((2 &&& 7 : Nat) = 2) ∧
    ((2 &&& 8 : Nat) = 0) ∧
    ((2 &&& 10 : Nat) = 2) ∧
    ((2 &&& 15 : Nat) = 2) ∧
    ((2 &&& 65528 : Nat) = 0) ∧
    ((2 &&& 65530 : Nat) = 2) ∧
    ((2 &&& 65535 : Nat) = 2) ∧
    ((3 &&& 2 : Nat) = 2) ∧
    ((3 &&& 4 : Nat) = 0) ∧
    ((3 &&& 5 : Nat) = 1) ∧
    ((3 &&& 6 : Nat) = 2) ∧
    ((3 &&& 7 : Nat) = 3) ∧
    ((3 &&& 8 : Nat) = 0) ∧
    ((3 &&& 10 : Nat) = 2) ∧
    ((3 &&& 15 : Nat) = 3) ∧
    ((3 &&& 65528 : Nat) = 0) ∧
    ((3 &&& 65530 : Nat) = 2) ∧
    ((3 &&& 65535 : Nat) = 3) ∧
    ((4 &&& 2 : Nat) = 0) ∧
    ((4 &&& 4 : Nat) = 4) ∧
    ((4 &&& 5 : Nat) = 4) ∧
    ((4 &&& 6 : Nat) = 4) ∧
    ((4 &&& 7 : Nat) = 4) ∧
    ((4 &&& 8 : Nat) = 0) ∧
    ((4 &&& 10 : Nat) = 0) ∧
    ((4 &&& 15 : Nat) = 4) ∧
    ((4 &&& 65528 : Nat) = 0) ∧
    ((4 &&& 65530 : Nat) = 0) ∧
    ((4 &&& 65535 : Nat) = 4) ∧
    ((5 &&& 2 : Nat) = 0) ∧
    ((5 &&& 4 : Nat) = 4) ∧
    ((5 &&& 5 : Nat) = 5) ∧
    ((5 &&& 6 : Nat) = 4) ∧
    ((5 &&& 7 : Nat) = 5) ∧
    ((5 &&& 8 : Nat) = 0) ∧
    ((5 &&& 10 : Nat) = 0) ∧
    ((5 &&& 15 : Nat) = 5) ∧
    ((5 &&& 65528 : Nat) = 0) ∧
    ((5 &&& 65530 : Nat) = 0) ∧
    ((5 &&& 65535 : Nat) = 5) ∧
    ((6 &&& 2 : Nat) = 2) ∧
    ((6 &&& 4 : Nat) = 4) ∧
    ((6 &&& 5 : Nat) = 4) ∧
    ((6 &&& 6 : Nat) = 6) ∧
    ((6 &&& 7 : Nat) = 6) ∧
    ((6 &&& 8 : Nat) = 0) ∧
    ((6 &&& 10 : Nat) = 2) ∧
    ((6 &&& 15 : Nat) = 6) ∧
    ((6 &&& 65528 : Nat) = 0) ∧
    ((6 &&& 65530 : Nat) = 2) ∧
    ((6 &&& 65535 : Nat) = 6) ∧
    ((7 &&& 2 : Nat) = 2) ∧
    ((7 &&& 4 : Nat) = 4) ∧
    ((7 &&& 5 : Nat) = 5) ∧
    ((7 &&& 6 : Nat) = 6) ∧
    ((7 &&& 7 : Nat) = 7) ∧
    ((7 &&& 8 : Nat) = 0) ∧
    ((7 &&& 10 : Nat) = 2) ∧
    ((7 &&& 15 : Nat) = 7) ∧
    ((7 &&& 65528 : Nat) = 0) ∧
    ((7 &&& 65530 : Nat) = 2) ∧
    ((7 &&& 65535 : Nat) = 7) ∧
    ((8 &&& 2 : Nat) = 0) ∧
    ((8 &&& 4 : Nat) = 0) ∧
    ((8 &&& 5 : Nat) = 0) ∧
    ((8 &&& 6 : Nat) = 0) ∧
    ((8 &&& 7 : Nat) = 0) ∧
    ((8 &&& 8 : Nat) = 8) ∧
    ((8 &&& 10 : Nat) = 8) ∧
    ((8 &&& 15 : Nat) = 8) ∧
    ((8 &&& 65528 : Nat) = 8) ∧
    ((8 &&& 65530 : Nat) = 8) ∧
    ((8 &&& 65535 : Nat) = 8) ∧
    ((9 &&& 2 : Nat) = 0) ∧
    ((9 &&& 4 : Nat) = 0) ∧
    ((9 &&& 5 : Nat) = 1) ∧
    ((9 &&& 6 : Nat) = 0) ∧
    ((9 &&& 7 : Nat) = 1) ∧
    ((9 &&& 8 : Nat) = 8) ∧
    ((9 &&& 10 : Nat) = 8) ∧
    ((9 &&& 15 : Nat) = 9) ∧
    ((9 &&& 65528 : Nat) = 8) ∧
    ((9 &&& 65530 : Nat) = 8) ∧
    ((9 &&& 65535 : Nat) = 9) ∧
    ((10 &&& 2 : Nat) = 2) ∧
    ((10 &&& 4 : Nat) = 0) ∧
    ((10 &&& 5 : Nat) = 0) ∧
    ((10 &&& 6 : Nat) = 2) ∧
    ((10 &&& 7 : Nat) = 2) ∧
    ((10 &&& 8 : Nat) = 8) ∧
    ((10 &&& 10 : Nat) = 10) ∧
    ((10 &&& 15 : Nat) = 10) ∧
    ((10 &&& 65528 : Nat) = 8) ∧
    ((10 &&& 65530 : Nat) = 10) ∧
    ((10 &&& 65535 : Nat) = 10) ∧
    ((11 &&& 2 : Nat) = 2) ∧
    ((11 &&& 4 : Nat) = 0) ∧
    ((11 &&& 5 : Nat) = 1) ∧
    ((11 &&& 6 : Nat) = 2) ∧
    ((11 &&& 7 : Nat) = 3) ∧
    ((11 &&& 8 : Nat) = 8) ∧
    ((11 &&& 10 : Nat) = 10) ∧
    ((11 &&& 15 : Nat) = 11) ∧
    ((11 &&& 65528 : Nat) = 8) ∧
    ((11 &&& 65530 : Nat) = 10) ∧
    ((11 &&& 65535 : Nat) = 11) ∧
    ((12 &&& 2 : Nat) = 0) ∧
    ((12 &&& 4 : Nat) = 4) ∧
    ((12 &&& 5 : Nat) = 4) ∧
    ((12 &&& 6 : Nat) = 4) ∧
    ((12 &&& 7 : Nat) = 4) ∧
    ((12 &&& 8 : Nat) = 8) ∧
    ((12 &&& 10 : Nat) = 8) ∧
    ((12 &&& 15 : Nat) = 12) ∧
    ((12 &&& 65528 : Nat) = 8) ∧
    ((12 &&& 65530 : Nat) = 8) ∧
    ((12 &&& 65535 : Nat) = 12) ∧
    ((13 &&& 2 : Nat) = 0) ∧
    ((13 &&& 4 : Nat) = 4) ∧
    ((13 &&& 5 : Nat) = 5) ∧
    ((13 &&& 6 : Nat) = 4) ∧
    ((13 &&& 7 : Nat) = 5) ∧
    ((13 &&& 8 : Nat) = 8) ∧
    ((13 &&& 10 : Nat) = 8) ∧
    ((13 &&& 15 : Nat) = 13) ∧
    ((13 &&& 65528 : Nat) = 8) ∧
    ((13 &&& 65530 : Nat) = 8) ∧
    ((13 &&& 65535 : Nat) = 13) ∧
    ((14 &&& 2 : Nat) = 2) ∧
    ((14 &&& 4 : Nat) = 4) ∧
    ((14 &&& 5 : Nat) = 4) ∧
    ((14 &&& 6 : Nat) = 6) ∧
    ((14 &&& 7 : Nat) = 6) ∧
    ((14 &&& 8 : Nat) = 8) ∧
    ((14 &&& 10 : Nat) = 10) ∧
    ((14 &&& 15 : Nat) = 14) ∧
    ((14 &&& 65528 : Nat) = 8) ∧
    ((14 &&& 65530 : Nat) = 10) ∧
    ((14 &&& 65535 : Nat) = 14) ∧
    ((15 &&& 2 : Nat) = 2) ∧
    ((15 &&& 4 : Nat) = 4) ∧
    ((15 &&& 5 : Nat) = 5) ∧
    ((15 &&& 6 : Nat) = 6) ∧
    ((15 &&& 7 : Nat) = 7) ∧
    ((15 &&& 8 : Nat) = 8) ∧
    ((15 &&& 10 : Nat) = 10) ∧
    ((15 &&& 15 : Nat) = 15) ∧
    ((15 &&& 65528 : Nat) = 8) ∧
    ((15 &&& 65530 : Nat) = 10) ∧
    ((15 &&& 65535 : Nat) = 15) ∧
    ((48 &&& 7 : Nat) = 0) ∧
    ((49 &&& 7 : Nat) = 1) ∧
    ((50 &&& 7 : Nat) = 2) ∧
    ((51 &&& 7 : Nat) = 3) ∧
    ((52 &&& 7 : Nat) = 4) ∧
    ((53 &&& 7 : Nat) = 5) ∧
    ((54 &&& 7 : Nat) = 6) ∧
    ((55 &&& 7 : Nat) = 7) := by
  refine ⟨rfl, rfl, rfl, rfl, rfl, rfl, rfl, rfl, rfl, rfl, rfl, rfl, rfl, rfl, rfl, rfl, rfl, rfl, rfl, rfl, rfl, rfl, rfl, rfl, rfl, rfl, rfl, rfl, rfl, rfl, rfl, rfl, rfl, rfl, rfl, rfl, rfl, rfl, rfl, rfl, rfl, rfl, rfl, rfl, rfl, rfl, rfl, rfl, rfl, rfl, rfl, rfl, rfl, rfl, rfl, rfl, rfl, rfl, rfl, rfl, rfl, rfl, rfl, rfl, rfl, rfl, rfl, rfl, rfl, rfl, rfl, rfl, rfl, rfl, rfl, rfl, rfl, rfl, rfl, rfl, rfl, rfl, rfl, rfl, rfl, rfl, rfl, rfl, rfl, rfl, rfl, rfl, rfl, rfl, rfl, rfl, rfl, rfl, rfl, rfl, rfl, rfl, rfl, rfl, rfl, rfl, rfl, rfl, rfl, rfl, rfl, rfl, rfl, rfl, rfl, rfl, rfl, rfl, rfl, rfl, rfl, rfl, rfl, rfl, rfl, rfl, rfl, rfl, rfl, rfl, rfl, rfl, rfl, rfl, rfl, rfl, rfl, rfl, rfl, rfl, rfl, rfl, rfl, rfl, rfl, rfl, rfl, rfl, rfl, rfl, rfl, rfl, rfl, rfl, rfl, rfl, rfl, rfl, rfl, rfl, rfl, rfl, rfl, rfl, rfl, rfl, rfl, rfl, rfl, rfl, rfl, rfl, rfl, rfl, rfl, rfl, rfl, rfl, rfl, rfl, rfl, rfl, rfl, rfl⟩

/-- The byte the RTC outputs while bytesRemaining = r: entry 7 - r of the
time array for the TIME and DATETIME commands, as an 8-bit value. -/
def rtcOutByte (t : List Nat) (r : Int) : Nat := t.getD (7 - r).toNat 0 % 256

/-- The contents of the RTC shift register after a full reading-direction
byte exchange: the falling edges sample the device-driven data pin, so
bit 0 holds the bit that was on the wire when the byte started and bit k
holds output bit k-1 of the byte B being read out. -/
def rtcJunkBits (b q B : Nat) : Nat :=
  setBitVal (setBitVal (setBitVal (setBitVal (setBitVal (setBitVal (setBitVal
    (setBitVal b 0 q) 1 ((B >>> 0) % 2)) 2 ((B >>> 1) % 2)) 3 ((B >>> 2) % 2))
    4 ((B >>> 3) % 2)) 5 ((B >>> 4) % 2)) 6 ((B >>> 5) % 2)) 7 ((B >>> 6) % 2)

/-- The byte assembled from eight wire bits, least significant first,
into an initially clear shift register. -/
def wByte (fb : Nat → Nat) : Nat :=
  setBitVal (setBitVal (setBitVal (setBitVal (setBitVal (setBitVal (setBitVal
    (setBitVal 0 0 (fb 0)) 1 (fb 1)) 2 (fb 2)) 3 (fb 3)) 4 (fb 4)) 5 (fb 5)) 6 (fb 6)) 7 (fb 7)

/-- Push a bitwise and through a conditional. -/
theorem iteAnd (p : Prop) [Decidable p] (a b m : Nat) :
    (if p then a else b) &&& m = if p then a &&& m else b &&& m := by split <;> rfl

/-- Push a bitwise or through a conditional. -/
theorem iteOr (p : Prop) [Decidable p] (a b m : Nat) :
    (if p then a else b) ||| m = if p then a ||| m else b ||| m := by split <;> rfl

/-- Push a left shift through a conditional. -/
theorem iteShl (p : Prop) [Decidable p] (a b k : Nat) :
    (if p then a else b) <<< k = if p then a <<< k else b <<< k := by split <;> rfl

/-- Push a right shift through a conditional. -/
theorem iteShr (p : Prop) [Decidable p] (a b k : Nat) :
    (if p then a else b) >>> k = if p then a >>> k else b >>> k := by split <;> rfl

/-- Push a remainder through a conditional. -/
theorem iteMod (p : Prop) [Decidable p] (a b k : Nat) :
    (if p then a else b) % k = if p then a % k else b % k := by split <;> rfl

/-- A conditional pin-3 level is 0 or 8. -/
theorem ite08 (p : Prop) [Decidable p] :
    (if p then (8 : Nat) else 0) = 0 ∨ (if p then (8 : Nat) else 0) = 8 := by
  split
  · right
    rfl
  · left
    rfl

theorem gpioEpilogue_pinState (g : GBACartridgeGPIO) : (gpioEpilogue g).pinState = g.pinState := by
  unfold gpioEpilogue; split <;> rfl

theorem gpioEpilogue_readWrite (g : GBACartridgeGPIO) :
    (gpioEpilogue g).readWrite = g.readWrite := by
  unfold gpioEpilogue; split <;> rfl

theorem gpioEpilogue_direction (g : GBACartridgeGPIO) :
    (gpioEpilogue g).direction = g.direction := by
  unfold gpioEpilogue; split <;> rfl

theorem gpioEpilogue_vis (g : GBACartridgeGPIO) : visInv (gpioEpilogue g) := by
  unfold gpioEpilogue visInv
  split
  · intro h
    simp_all
  · intro _
    rfl

theorem write_vis (g : GBACartridgeGPIO) (addr v : Nat) : visInv (GBAGPIOWrite g addr v) :=
  gpioEpilogue_vis _

/-- C10: GBAGPIODeserialize leaves the attached-devices set of the target
bus unchanged; GBAGPIOSerialize does record the devices field in the
snapshot, but restoration never reads it back, so restoring is
insensitive to the devices value stored in the snapshot. -/
theorem c10_devices_preserved (g : GBACartridgeGPIO) (st : GBASerializedGPIO) (d : Nat) :
    (GBAGPIODeserialize g st).gpioDevices = g.gpioDevices ∧
    (GBAGPIOSerialize g).devices = g.gpioDevices ∧
    GBAGPIODeserialize g { st with devices := d } = GBAGPIODeserialize g st :=
  ⟨rfl, rfl, rfl⟩

/-- C1 counterexample: serializing a bus whose published word is 8 and
deserializing into a freshly initialized bus (same zero base word, same
empty device set) yields a bus whose published register word differs
from the original, so the observable behaviour (a CPU read of the
register) is not equal for every subsequent operation sequence: the
deserializer never restores the memory-mapped word. -/
theorem c1_published_word_cex :
    (GBAGPIODeserialize (GBAGPIOInit zeroGPIO 0)
        (GBAGPIOSerialize (GBAGPIOWrite (GBAGPIOWrite (GBAGPIOWrite (GBAGPIOInit zeroGPIO 0)
          GPIO_REG_CONTROL 1) GPIO_REG_DIRECTION 15) GPIO_REG_DATA 8))).gpioBase ≠
      (GBAGPIOWrite (GBAGPIOWrite (GBAGPIOWrite (GBAGPIOInit zeroGPIO 0)
          GPIO_REG_CONTROL 1) GPIO_REG_DIRECTION 15) GPIO_REG_DATA 8).gpioBase := by
  decide

/-- C1 (amended): deserializing a snapshot of bus g into a fresh bus
restores every serialized state field verbatim; if the fresh bus has the
same attached devices, the same host environment and the same published
word as g, the restored bus equals g exactly, and hence behaves
identically to g under every subsequent operation sequence.  The
attached-devices set and the published word are not restored from the
snapshot, which is what the counterexample exploits. -/
theorem c1_roundtrip_restores (g fresh : GBACartridgeGPIO)
    (hdev : fresh.gpioDevices = g.gpioDevices) (henv : fresh.p = g.p)
    (hbase : fresh.gpioBase = g.gpioBase) :
    GBAGPIODeserialize fresh (GBAGPIOSerialize g) = g := by
  cases g
  cases fresh
  simp_all [GBAGPIOSerialize, GBAGPIODeserialize]

/-- C1 witness: the amended round trip evaluated at a concrete bus. -/
theorem c1_roundtrip_restores_witness :
    GBAGPIODeserialize (GBAGPIOInit zeroGPIO 0)
        (GBAGPIOSerialize { zeroGPIO with pinState := 7, readWrite := 1 }) =
      { zeroGPIO with pinState := 7, readWrite := 1 } :=
  c1_roundtrip_restores { zeroGPIO with pinState := 7, readWrite := 1 }
    (GBAGPIOInit zeroGPIO 0) rfl rfl rfl

/-- C2 counterexample: a DATA write of value 2 to a bus whose direction
is 0 (all pins device-driven) stores 2 into pinState, while the claimed
update (pin_state and-not direction, or value-and-direction) would store
0: the source ORs in the whole written value, not only its CPU-driven
bits. -/
theorem c2_mask_claim_cex :
    (GBAGPIOWrite zeroGPIO GPIO_REG_DATA 2).pinState ≠
      ( zeroGPIO.pinState &&& compl16 zeroGPIO.direction) ||| (2 &&& zeroGPIO.direction) := by
  decide

/-- C2 (amended): for every DATA write of v, the new pinState established
before device dispatch equals the old pinState with its CPU-driven bits
cleared, ORed with all 16 low bits of v, CPU-driven or not: pinState
becomes (pinState and-not direction) or (v mod 2^16).  Stated on a bus
with no devices attached so that the dispatch step is the identity and
the pre-dispatch pinState is the post-write pinState. -/
theorem c2_data_write_full_value (g : GBACartridgeGPIO) (v : Nat) (hdev : g.gpioDevices = 0) :
    (GBAGPIOWrite g GPIO_REG_DATA v).pinState =
      (g.pinState &&& compl16 g.direction) ||| (v &&& 65535) := by
  unfold GBAGPIOWrite
  rw [gpioEpilogue_pinState]
  simp [gpioWriteReg, readPins, rtcDispatch, gyroDispatch, rumbleDispatch, lightDispatch,
    hdev, GPIO_REG_DATA]

/-- C2 witness: the amended DATA write law at a concrete bus and value. -/
theorem c2_data_write_full_value_witness :
    (GBAGPIOWrite zeroGPIO GPIO_REG_DATA 3).pinState =
      ( zeroGPIO.pinState &&& compl16 zeroGPIO.direction) ||| (3 &&& 65535) :=
  c2_data_write_full_value zeroGPIO 3 rfl

/-- C3 counterexample: writing 2 to CONTROL and writing 2 and 1 = 0 to
CONTROL do not behave identically: the source stores the whole value
into readWrite and later tests it for being nonzero, so the write of 2
leaves visibility on (and publishes pinState) while the write of 0 turns
it off (and publishes 0). -/
theorem c3_control_bit0_cex :
    GBAGPIOWrite { zeroGPIO with pinState := 1 } GPIO_REG_CONTROL 2 ≠
      GBAGPIOWrite { zeroGPIO with pinState := 1 } GPIO_REG_CONTROL (2 &&& 1) := by
  decide

/-- C3 (amended): register writes depend on all 16 low bits of the
written value, not only on the 4 low bits of DATA and DIRECTION or bit 0
of CONTROL: writing v and writing v mod 2^16 are identical for every
register, a CONTROL write stores the full 16-bit value into readWrite
(visibility is its nonzero-ness), and a DIRECTION write stores the full
16-bit value into direction. -/
theorem c3_writes_use_full_low16 (g : GBACartridgeGPIO) (addr v : Nat) :
    GBAGPIOWrite g addr v = GBAGPIOWrite g addr (v &&& 65535) ∧
    (GBAGPIOWrite g GPIO_REG_CONTROL v).readWrite = v &&& 65535 ∧
    (GBAGPIOWrite g GPIO_REG_DIRECTION v).direction = v &&& 65535 := by
  refine ⟨?_, ?_, ?_⟩
  · unfold GBAGPIOWrite
    rw [Nat.and_assoc, Nat.and_self]
  · unfold GBAGPIOWrite
    rw [gpioEpilogue_readWrite]
    simp [gpioWriteReg, GPIO_REG_CONTROL, GPIO_REG_DIRECTION, GPIO_REG_DATA]
  · unfold GBAGPIOWrite
    rw [gpioEpilogue_direction]
    simp [gpioWriteReg, GPIO_REG_CONTROL, GPIO_REG_DIRECTION, GPIO_REG_DATA]

/-- C4: with readWrite off the published register word is 0 after every
GPIO register write (first conjunct, with no assumption on the incoming
state); the visibility invariant is preserved by arbitrary write
sequences (second conjunct); and a device output proposal through the
output helper while readWrite is off leaves the published word at 0
(third conjunct), regardless of the proposed pins. -/
theorem c4_invisible_publishes_zero (g : GBACartridgeGPIO) (addr v pins : Nat)
    (ops : List (Nat × Nat)) :
    ((GBAGPIOWrite g addr v).readWrite = 0 → (GBAGPIOWrite g addr v).gpioBase = 0) ∧
    (visInv g → visInv (runWrites ops g)) ∧
    (visInv g → g.readWrite = 0 → (outputPins g pins).gpioBase = 0) := by
  refine ⟨write_vis g addr v, ?_, ?_⟩
  · intro hg
    induction ops generalizing g with
    | nil => exact hg
    | cons op ops ih => exact ih _ (write_vis _ _ _)
  · intro hg hrw
    unfold outputPins
    simp [hrw]
    exact hg hrw

/-- C4 witness: the visibility property evaluated at a concrete bus,
write, run and proposal. -/
theorem c4_invisible_publishes_zero_witness :
    (GBAGPIOWrite zeroGPIO GPIO_REG_DATA 5).gpioBase = 0 ∧
    visInv (runWrites [(0, 5), (1, 3)] zeroGPIO) ∧
    (outputPins zeroGPIO 15).gpioBase = 0 :=
  ⟨(c4_invisible_publishes_zero zeroGPIO GPIO_REG_DATA 5 15 [(0, 5), (1, 3)]).1 (by decide),
   (c4_invisible_publishes_zero zeroGPIO GPIO_REG_DATA 5 15 [(0, 5), (1, 3)]).2.1 (fun _ => rfl),
   (c4_invisible_publishes_zero zeroGPIO GPIO_REG_DATA 5 15 [(0, 5), (1, 3)]).2.2 (fun _ => rfl)
     rfl⟩

/-- C7: in transfer step 2, a bus update with the clock pin 0 high and
chip select pin 2 low aborts the RTC transfer: bitsRead, bytesRemaining,
commandActive and the reading flag of the command are all reset to zero
and the transfer step returns to 0; nothing else changes. -/
theorem c7_cs_low_abort (g : GBACartridgeGPIO) (hstep : g.rtc.transferStep = 2)
    (hp0 : g.p0 ≠ 0) (hp2 : g.p2 = 0) :
    rtcReadPins g =
      { g with rtc.bitsRead := 0, rtc.bytesRemaining := 0, rtc.commandActive := 0,
               rtc.command.reading := 0, rtc.transferStep := 0 } := by
  unfold rtcReadPins rtcStep2
  simp [hstep, hp0, hp2]

/-- C7 witness: the abort evaluated at a concrete mid-transfer state. -/
theorem c7_cs_low_abort_witness :
    rtcReadPins { zeroGPIO with pinState := 1, rtc := { bytesRemaining := 3, transferStep := 2, bitsRead := 4, bits := 5, commandActive := 1, command := ⟨6, 6, 1⟩, control := 0x40, time := [0, 0, 0, 0, 1, 2, 3] } } =
      { ({ zeroGPIO with pinState := 1, rtc := { bytesRemaining := 3, transferStep := 2, bitsRead := 4, bits := 5, commandActive := 1, command := ⟨6, 6, 1⟩, control := 0x40, time := [0, 0, 0, 0, 1, 2, 3] } } : GBACartridgeGPIO) with
        rtc.bitsRead := 0, rtc.bytesRemaining := 0, rtc.commandActive := 0, rtc.command.reading := 0, rtc.transferStep := 0 } :=
  c7_cs_low_abort _ rfl (by decide) (by decide)

/-- C9: while readWrite is off a device output proposal has no effect at
all, on the pinState as well as on the published word (the output helper
returns the state unchanged); the internal shift of the gyro sample on a
falling edge of pin 1 still occurs even then, with the rest of the bus
untouched. -/
theorem c9_invisible_output_dropped (g : GBACartridgeGPIO) (pins : Nat)
    (rot : GBARotationSource) (hrw : g.readWrite = 0)
    (hrot : g.p.rotationSource = some rot) (hp0 : g.p0 = 0) (hedge : g.gyroEdge ≠ 0)
    (hp1 : g.p1 = 0) :
    outputPins g pins = g ∧
    gyroReadPins g = { g with gyroSample := (g.gyroSample <<< 1) % 65536, gyroEdge := 0 } := by
  have hout : ∀ h : GBACartridgeGPIO, h.readWrite = 0 → ∀ q : Nat, outputPins h q = h := by
    intro h hh q
    unfold outputPins
    simp [hh]
  refine ⟨hout g hrw pins, ?_⟩
  have hp1x : (g.pinState >>> 1) &&& 1 = 0 := hp1
  simp [gyroReadPins, gyroLatch, gyroShift, gyroSetEdge, hrot, hp0, hedge, hp1, hp1x,
    outputPins, hrw, GBACartridgeGPIO.p1]

/-- C9 witness: the dropped proposal and surviving gyro shift at a
concrete invisible bus. -/
theorem c9_invisible_output_dropped_witness :
    outputPins { zeroGPIO with p.rotationSource := some ⟨0, none, none⟩, gyroEdge := 1, gyroSample := 40000 } 7 = { zeroGPIO with p.rotationSource := some ⟨0, none, none⟩, gyroEdge := 1, gyroSample := 40000 } ∧
    gyroReadPins { zeroGPIO with p.rotationSource := some ⟨0, none, none⟩, gyroEdge := 1, gyroSample := 40000 } = { zeroGPIO with p.rotationSource := some ⟨0, none, none⟩, gyroEdge := 0, gyroSample := 14464 } := by
  have h := c9_invisible_output_dropped { zeroGPIO with p.rotationSource := some ⟨0, none, none⟩, gyroEdge := 1, gyroSample := 40000 } 7 ⟨0, none, none⟩ rfl rfl rfl (by decide) rfl
  exact ⟨h.1, h.2.trans (by decide)⟩

theorem lightRise_eq (s c e : Nat) (he : e = 0 ∨ e = 8) :
    GBAGPIOWrite (lightState s c e) GPIO_REG_DATA 1 =
      { lightState s ((c + 1) % 256) (if s % 256 ≤ (c + 1) % 256 then 8 else 0) with
        lightEdge := false } := by
  rcases he with rfl | rfl <;>
    simp [lightState, GBAGPIOWrite, gpioWriteReg, readPins, rtcDispatch,
      gyroDispatch, rumbleDispatch, lightDispatch, lightReadPins, lightReset, lightCount,
      lightSetEdge, lightSend, outputPins, gpioEpilogue, compl16, GBACartridgeGPIO.p0,
      GBACartridgeGPIO.p1, GBACartridgeGPIO.p2, GPIO_REG_DATA, GPIO_RTC, GPIO_GYRO,
      GPIO_RUMBLE, GPIO_LIGHT_SENSOR, landLits, iteAnd, iteOr, iteShl, iteMod, iteShr]

theorem lightFall_eq (s c e : Nat) (he : e = 0 ∨ e = 8) :
    GBAGPIOWrite { lightState s c e with lightEdge := false } GPIO_REG_DATA 0 =
      lightState s c (if s % 256 ≤ c then 8 else 0) := by
  rcases he with rfl | rfl <;>
    simp [lightState, GBAGPIOWrite, gpioWriteReg, readPins, rtcDispatch,
      gyroDispatch, rumbleDispatch, lightDispatch, lightReadPins, lightReset, lightCount,
      lightSetEdge, lightSend, outputPins, gpioEpilogue, compl16, GBACartridgeGPIO.p0,
      GBACartridgeGPIO.p1, GBACartridgeGPIO.p2, GPIO_REG_DATA, GPIO_RTC, GPIO_GYRO,
      GPIO_RUMBLE, GPIO_LIGHT_SENSOR, landLits, iteAnd, iteOr, iteShl, iteMod, iteShr]

theorem lightTick_eq (s c e : Nat) (he : e = 0 ∨ e = 8) :
    lightTick (lightState s c e) =
      lightState s ((c + 1) % 256) (if s % 256 ≤ (c + 1) % 256 then 8 else 0) := by
  unfold lightTick
  rw [lightRise_eq s c e he, lightFall_eq s ((c + 1) % 256) _ (ite08 _)]

theorem lightRun_eq (s : Nat) : ∀ (k c e : Nat), e = 0 ∨ e = 8 →
    lightRun (k + 1) (lightState s c e) =
      lightState s ((c + k + 1) % 256) (if s % 256 ≤ (c + k + 1) % 256 then 8 else 0) := by
  intro k
  induction k with
  | zero =>
    intro c e he
    show lightRun 0 (lightTick (lightState s c e)) = _
    rw [lightTick_eq s c e he]
    rfl
  | succ k ih =>
    intro c e he
    show lightRun (k + 1) (lightTick (lightState s c e)) = _
    rw [lightTick_eq s c e he, ih ((c + 1) % 256) _ (ite08 _)]
    have harith : (c + 1) % 256 + k + 1 = (c + 1) % 256 + (k + 1) := by omega
    have hmod : ((c + 1) % 256 + (k + 1)) % 256 = (c + 1 + (k + 1)) % 256 :=
      Nat.mod_add_mod (c + 1) 256 (k + 1)
    have harith2 : c + 1 + (k + 1) = c + (k + 1) + 1 := by omega
    rw [harith, hmod, harith2]

theorem lightStart_eq (s : Nat) :
    lightStart s = lightState s 0 (if s % 256 ≤ 0 then 8 else 0) := by
  simp [lightStart, lightState, GBAGPIOInitLightSensor, GBAGPIOInit, GBAGPIOClear,
    GBAGPIOWrite, gpioWriteReg, readPins, rtcDispatch, gyroDispatch, rumbleDispatch,
    lightDispatch, lightReadPins, lightReset, lightCount, lightSetEdge, lightSend,
    outputPins, gpioEpilogue, zeroGPIO, emptyGBA, compl16, GBACartridgeGPIO.p0,
    GBACartridgeGPIO.p1, GBACartridgeGPIO.p2, GPIO_REG_DATA, GPIO_REG_DIRECTION,
    GPIO_REG_CONTROL, GPIO_RTC, GPIO_GYRO, GPIO_RUMBLE, GPIO_LIGHT_SENSOR, GPIO_NONE,
    landLits, iteAnd, iteOr, iteShl, iteMod, iteShr]

theorem bitValEq (y i : Nat) : (y >>> i) &&& 1 = if y.testBit i then 1 else 0 := by
  rw [Nat.and_one_is_mod, Nat.shiftRight_eq_div_pow, Nat.testBit_to_div_mod]
  rcases Nat.mod_two_eq_zero_or_one (y / 2 ^ i) with h | h <;> simp [h]

theorem testBitOfVal (y i : Nat) (h : (y >>> i) &&& 1 = 0) : y.testBit i = false := by
  rw [bitValEq] at h
  rcases hb : y.testBit i with _ | _
  · rfl
  · simp [hb] at h

theorem outputBit3 (w d x : Nat) (hd : (d >>> 3) &&& 1 = 0) (hx : x ≤ 1) :
    (((w &&& d) ||| ((x <<< 3) &&& compl16 d &&& 15)) >>> 3) &&& 1 = x := by
  rw [bitValEq]
  have hd3 : d.testBit 3 = false := testBitOfVal d 3 hd
  have h65535 : (65535 : Nat).testBit 3 = true := by decide
  have h15 : (15 : Nat).testBit 3 = true := by decide
  simp [Nat.testBit_or, Nat.testBit_and, Nat.testBit_shiftLeft, Nat.testBit_xor,
    compl16, hd3, h65535, h15]
  interval_cases x
  · simp
  · simp

theorem lightSend_bit3 (h : GBACartridgeGPIO) (hrw : h.readWrite ≠ 0)
    (hd : (h.direction >>> 3) &&& 1 = 0) :
    ((lightSend h).gpioBase >>> 3) &&& 1 =
      if (lightSend h).lightSample ≤ (lightSend h).lightCounter then 1 else 0 := by
  unfold lightSend outputPins
  simp only [hrw, ne_eq, not_false_eq_true, if_true, if_pos]
  have hx : (if h.lightSample ≤ h.lightCounter then (1 : Nat) else 0) ≤ 1 := by
    split
    · exact le_refl 1
    · exact Nat.zero_le 1
  exact outputBit3 h.gpioBase h.direction _ hd hx

theorem lightStages_keep (g : GBACartridgeGPIO) :
    (lightSetEdge (lightCount (lightReset g))).readWrite = g.readWrite ∧
    (lightSetEdge (lightCount (lightReset g))).direction = g.direction := by
  unfold lightSetEdge lightCount lightReset
  constructor <;> (split <;> split <;> rfl)

/-- C8: on every light-sensor bus update with chip select low (and the
bus visible with pin 3 device-driven, so the proposal is observable),
the published word carries pin 3 high exactly when the updated counter
has reached the updated sample (first conjunct); and in a latch-then-
clock run with luminance s, after any number n = k+1 of clock ticks the
counter equals n and pin 3 of the published word is high exactly when n
has reached s, so pin 3 first goes high on exactly the tick where the
counter first reaches s (second and third conjuncts). -/
theorem c8_light_threshold (g : GBACartridgeGPIO) (s k : Nat)
    (hp2 : g.p2 = 0) (hrw : g.readWrite ≠ 0) (hd3 : (g.direction >>> 3) &&& 1 = 0)
    (hs1 : 1 ≤ s) (hs2 : s ≤ 255) (hk : k + 1 ≤ 255) :
    (((lightReadPins g).gpioBase >>> 3) &&& 1 =
      if (lightReadPins g).lightSample ≤ (lightReadPins g).lightCounter then 1 else 0) ∧
    (lightRun (k + 1) (lightStart s)).lightCounter = k + 1 ∧
    ((lightRun (k + 1) (lightStart s)).gpioBase >>> 3) &&& 1 =
      (if s ≤ k + 1 then 1 else 0) := by
  have hsm : s % 256 = s := Nat.mod_eq_of_lt (by omega)
  have hkm : (0 + k + 1) % 256 = k + 1 := by omega
  have hrun : lightRun (k + 1) (lightStart s) =
      lightState s (k + 1) (if s ≤ k + 1 then 8 else 0) := by
    rw [lightStart_eq s, lightRun_eq s k 0 _ (ite08 _), hkm, hsm]
  refine ⟨?_, ?_, ?_⟩
  · have hstep : lightReadPins g = lightSend (lightSetEdge (lightCount (lightReset g))) := by
      unfold lightReadPins
      simp [hp2]
    rw [hstep]
    exact lightSend_bit3 _
      (by rw [(lightStages_keep g).1]; exact hrw)
      (by rw [(lightStages_keep g).2]; exact hd3)
  · rw [hrun]
    simp [lightState]
  · rw [hrun]
    have hsh : (lightState s (k + 1) (if s ≤ k + 1 then 8 else 0)).gpioBase =
        (if s ≤ k + 1 then 8 else 0) := by simp [lightState]
    rw [hsh]
    split <;> rfl

set_option maxRecDepth 4000 in
/-- C8 witness: the threshold property evaluated at a concrete bus
update and a concrete latch-and-clock run. -/
theorem c8_light_threshold_witness :
    (((lightReadPins (lightState 3 1 0)).gpioBase >>> 3) &&& 1 =
      if (lightReadPins (lightState 3 1 0)).lightSample ≤
          (lightReadPins (lightState 3 1 0)).lightCounter then 1 else 0) ∧
    (lightRun 3 (lightStart 3)).lightCounter = 3 ∧
    ((lightRun 3 (lightStart 3)).gpioBase >>> 3) &&& 1 = (if 3 ≤ 3 then 1 else 0) :=
  c8_light_threshold (lightState 3 1 0) 3 2 (by decide) (by decide) (by decide) (by decide)
    (by decide) (by decide)

theorem fallR_eq (q : Nat) (r : Int) (j b ca : Nat) (cmd : RTCCommandData) (ctl : Nat)
    (t : List Nat) (hq : q ≤ 1) :
    GBAGPIOWrite (rtcBus (4 ||| (q <<< 1)) (4 ||| (q <<< 1)) 5 r j b ca cmd ctl t)
      GPIO_REG_DATA 4 =
      rtcBus (4 ||| (q <<< 1)) (4 ||| (q <<< 1)) 5 r j (setBitVal b j q) ca cmd ctl t := by
  interval_cases q <;>
    simp [rtcBus, GBAGPIOWrite, gpioWriteReg, readPins, rtcDispatch, gyroDispatch,
      rumbleDispatch, lightDispatch, rtcReadPins, rtcStep2, gpioEpilogue, compl16,
      GBACartridgeGPIO.p0, GBACartridgeGPIO.p1, GBACartridgeGPIO.p2,
      GBACartridgeGPIO.dir1, GPIO_REG_DATA, GPIO_RTC, GPIO_GYRO, GPIO_RUMBLE,
      GPIO_LIGHT_SENSOR, landLits]

theorem riseR_mid_eq (q : Nat) (r : Int) (j b : Nat) (m rd ctl : Nat) (t : List Nat)
    (hq : q ≤ 1) (hj : j < 7) :
    GBAGPIOWrite (rtcBus (4 ||| (q <<< 1)) (4 ||| (q <<< 1)) 5 r j b 1 ⟨m, 6, rd⟩ ctl t)
      GPIO_REG_DATA 5 =
      rtcBus (4 ||| (((rtcOutByte t r >>> j) % 2) <<< 1))
        (4 ||| (((rtcOutByte t r >>> j) % 2) <<< 1)) 5 r (j + 1) b 1
        ⟨m, 6, rd⟩ ctl t := by
  have h8 : j + 1 ≠ 8 := by omega
  rcases Nat.mod_two_eq_zero_or_one (rtcOutByte t r >>> j) with ho | ho <;>
    interval_cases q <;>
      simp [rtcBus, rtcOutByte, GBAGPIOWrite, gpioWriteReg, readPins, rtcDispatch,
        gyroDispatch, rumbleDispatch, lightDispatch, rtcReadPins, rtcStep2, rtcIncBits,
        rtcReadByteEnd, rtcOutput, outputPins, gpioEpilogue, compl16, GBACartridgeGPIO.p0,
        GBACartridgeGPIO.p1, GBACartridgeGPIO.p2, GBACartridgeGPIO.dir1, GPIO_REG_DATA,
        GPIO_RTC, GPIO_GYRO, GPIO_RUMBLE, GPIO_LIGHT_SENSOR, RTC_CONTROL, RTC_DATETIME,
        RTC_TIME, landLits, h8, ho] <;>
      simp [rtcOutByte] at ho <;> simp [ho, landLits]

theorem riseR_end_eq (q : Nat) (r : Int) (b : Nat) (m rd ctl : Nat) (t : List Nat)
    (hq : q ≤ 1) :
    GBAGPIOWrite (rtcBus (4 ||| (q <<< 1)) (4 ||| (q <<< 1)) 5 r 7 b 1 ⟨m, 6, rd⟩ ctl t)
      GPIO_REG_DATA 5 =
      rtcBus (4 ||| (((rtcOutByte t r >>> 7) % 2) <<< 1))
        (4 ||| (((rtcOutByte t r >>> 7) % 2) <<< 1)) 5 (r - 1) 0 b
        (if r - 1 ≤ 0 then 0 else 1) ⟨m, 6, if r - 1 ≤ 0 then 0 else rd⟩ ctl t := by
  rcases Nat.mod_two_eq_zero_or_one (rtcOutByte t r >>> 7) with ho | ho <;>
    by_cases hr : r - 1 ≤ 0 <;>
    interval_cases q <;>
      simp [rtcBus, rtcOutByte, GBAGPIOWrite, gpioWriteReg, readPins, rtcDispatch,
        gyroDispatch, rumbleDispatch, lightDispatch, rtcReadPins, rtcStep2, rtcIncBits,
        rtcReadByteEnd, rtcReadDone, rtcOutput, outputPins, gpioEpilogue, compl16,
        GBACartridgeGPIO.p0, GBACartridgeGPIO.p1, GBACartridgeGPIO.p2,
        GBACartridgeGPIO.dir1, GPIO_REG_DATA, GPIO_RTC, GPIO_GYRO, GPIO_RUMBLE,
        GPIO_LIGHT_SENSOR, RTC_CONTROL, RTC_DATETIME, RTC_TIME, landLits, hr] <;>
      simp [rtcOutByte] at ho <;> simp [ho, landLits]

theorem modTwoLe (x : Nat) : x % 2 ≤ 1 := by omega

theorem readRun_succ (n : Nat) (g : GBACartridgeGPIO) :
    readRun (n + 1) g = obsBit (tickR g) :: readRun n (tickR g) := rfl

theorem obsBus (x ps dir : Nat) (r : Int) (j b ca : Nat) (cmd : RTCCommandData)
    (ctl : Nat) (t : List Nat) (hx : x ≤ 1) :
    obsBit (rtcBus (4 ||| (x <<< 1)) ps dir r j b ca cmd ctl t) = x := by
  interval_cases x <;> simp [obsBit, rtcBus]

theorem tickR_mid (q : Nat) (r : Int) (j b : Nat) (m rd ctl : Nat) (t : List Nat)
    (hq : q ≤ 1) (hj : j < 7) :
    tickR (rtcBus (4 ||| (q <<< 1)) (4 ||| (q <<< 1)) 5 r j b 1 ⟨m, 6, rd⟩ ctl t) =
      rtcBus (4 ||| (((rtcOutByte t r >>> j) % 2) <<< 1))
        (4 ||| (((rtcOutByte t r >>> j) % 2) <<< 1)) 5 r (j + 1) (setBitVal b j q) 1
        ⟨m, 6, rd⟩ ctl t := by
  unfold tickR
  rw [fallR_eq q r j b 1 ⟨m, 6, rd⟩ ctl t hq,
      riseR_mid_eq q r j (setBitVal b j q) m rd ctl t hq hj]

theorem tickR_end (q : Nat) (r : Int) (b : Nat) (m rd ctl : Nat) (t : List Nat)
    (hq : q ≤ 1) :
    tickR (rtcBus (4 ||| (q <<< 1)) (4 ||| (q <<< 1)) 5 r 7 b 1 ⟨m, 6, rd⟩ ctl t) =
      rtcBus (4 ||| (((rtcOutByte t r >>> 7) % 2) <<< 1))
        (4 ||| (((rtcOutByte t r >>> 7) % 2) <<< 1)) 5 (r - 1) 0 (setBitVal b 7 q)
        (if r - 1 ≤ 0 then 0 else 1) ⟨m, 6, if r - 1 ≤ 0 then 0 else rd⟩ ctl t := by
  unfold tickR
  rw [fallR_eq q r 7 b 1 ⟨m, 6, rd⟩ ctl t hq,
      riseR_end_eq q r (setBitVal b 7 q) m rd ctl t hq]

theorem byteR_eq (n q : Nat) (r : Int) (b m rd ctl : Nat) (t : List Nat) (hq : q ≤ 1) :
    readRun (n + 8) (rtcBus (4 ||| (q <<< 1)) (4 ||| (q <<< 1)) 5 r 0 b 1 ⟨m, 6, rd⟩ ctl t) =
      bitsLE (rtcOutByte t r) ++
        readRun n (rtcBus (4 ||| (((rtcOutByte t r >>> 7) % 2) <<< 1))
          (4 ||| (((rtcOutByte t r >>> 7) % 2) <<< 1)) 5 (r - 1) 0
          (rtcJunkBits b q (rtcOutByte t r)) (if r - 1 ≤ 0 then 0 else 1)
          ⟨m, 6, if r - 1 ≤ 0 then 0 else rd⟩ ctl t) := by
  show readRun (n + 7 + 1) _ = _
  rw [readRun_succ, tickR_mid q r 0 b m rd ctl t hq (by omega),
      obsBus _ _ _ _ _ _ _ _ _ _ (modTwoLe _)]
  rw [show readRun (n + 7) = readRun (n + 6 + 1) from rfl]
  rw [readRun_succ, tickR_mid _ r 1 _ m rd ctl t (modTwoLe _) (by omega),
      obsBus _ _ _ _ _ _ _ _ _ _ (modTwoLe _)]
  rw [show readRun (n + 6) = readRun (n + 5 + 1) from rfl]
  rw [readRun_succ, tickR_mid _ r 2 _ m rd ctl t (modTwoLe _) (by omega),
      obsBus _ _ _ _ _ _ _ _ _ _ (modTwoLe _)]
  rw [show readRun (n + 5) = readRun (n + 4 + 1) from rfl]
  rw [readRun_succ, tickR_mid _ r 3 _ m rd ctl t (modTwoLe _) (by omega),
      obsBus _ _ _ _ _ _ _ _ _ _ (modTwoLe _)]
  rw [show readRun (n + 4) = readRun (n + 3 + 1) from rfl]
  rw [readRun_succ, tickR_mid _ r 4 _ m rd ctl t (modTwoLe _) (by omega),
      obsBus _ _ _ _ _ _ _ _ _ _ (modTwoLe _)]
  rw [show readRun (n + 3) = readRun (n + 2 + 1) from rfl]
  rw [readRun_succ, tickR_mid _ r 5 _ m rd ctl t (modTwoLe _) (by omega),
      obsBus _ _ _ _ _ _ _ _ _ _ (modTwoLe _)]
  rw [show readRun (n + 2) = readRun (n + 1 + 1) from rfl]
  rw [readRun_succ, tickR_mid _ r 6 _ m rd ctl t (modTwoLe _) (by omega),
      obsBus _ _ _ _ _ _ _ _ _ _ (modTwoLe _)]
  rw [show readRun (n + 1) = readRun (n + 0 + 1) from rfl]
  rw [readRun_succ, tickR_end _ r _ m rd ctl t (modTwoLe _),
      obsBus _ _ _ _ _ _ _ _ _ _ (modTwoLe _)]
  simp [bitsLE, rtcJunkBits, Nat.and_one_is_mod]

/-- C5: in a reading-direction transfer for the TIME command (3 payload
bytes, bytesRemaining starting at 3), the 24 data bits observed on the
published word after the successive rising clocks are exactly the bits
of time[4], time[5] and time[6] (hour, minute, second), each byte least
significant bit first: the byte selected while bytesRemaining = r is
time[7 - r], and within a byte the bit returned at each rising clock is
bit bitsRead of that byte. -/
theorem c5_time_readout (q b m rd ctl t0 t1 t2 t3 t4 t5 t6 : Nat)
    (hq : q ≤ 1) (h4 : t4 < 256) (h5 : t5 < 256) (h6 : t6 < 256) :
    readRun 24 (rtcBus (4 ||| (q <<< 1)) (4 ||| (q <<< 1)) 5 3 0 b 1 ⟨m, 6, rd⟩ ctl
        [t0, t1, t2, t3, t4, t5, t6]) =
      bitsLE t4 ++ bitsLE t5 ++ bitsLE t6 := by
  have hB3 : rtcOutByte [t0, t1, t2, t3, t4, t5, t6] 3 = t4 := by
    simp [rtcOutByte, Nat.mod_eq_of_lt h4]
  have hB2 : rtcOutByte [t0, t1, t2, t3, t4, t5, t6] 2 = t5 := by
    simp [rtcOutByte, Nat.mod_eq_of_lt h5]
  have hB1 : rtcOutByte [t0, t1, t2, t3, t4, t5, t6] 1 = t6 := by
    simp [rtcOutByte, Nat.mod_eq_of_lt h6]
  show readRun (16 + 8) _ = _
  rw [byteR_eq 16 q 3 b m rd ctl _ hq, hB3]
  norm_num
  rw [show readRun (16 : Nat) = readRun (8 + 8) from rfl]
  rw [byteR_eq 8 _ 2 _ m rd ctl _ (modTwoLe _), hB2]
  norm_num
  rw [show readRun (8 : Nat) = readRun (0 + 8) from rfl]
  rw [byteR_eq 0 _ 1 _ m rd ctl _ (modTwoLe _), hB1]
  norm_num
  simp [readRun]

/-- C5 witness: the TIME readout evaluated at the concrete time bytes
0x13, 0x37, 0x42. -/
theorem c5_time_readout_witness :
    readRun 24 (rtcBus (4 ||| (0 <<< 1)) (4 ||| (0 <<< 1)) 5 3 0 0 1 ⟨6, 6, 1⟩ 0x40
        [0, 1, 2, 3, 0x13, 0x37, 0x42]) =
      bitsLE 0x13 ++ bitsLE 0x37 ++ bitsLE 0x42 :=
  c5_time_readout 0 0 6 1 0x40 0 1 2 3 0x13 0x37 0x42 (by decide) (by decide) (by decide)
    (by decide)

theorem lt8_and65528 (x : Nat) (h : x < 8) : x &&& 65528 = 0 := by
  interval_cases x <;> rfl

theorem or4lt8 (x : Nat) (hx : x ≤ 1) : (4 ||| (x <<< 1)) < 8 := by
  interval_cases x <;> decide

theorem or5lt8 (x : Nat) (hx : x ≤ 1) : (5 ||| (x <<< 1)) < 8 := by
  interval_cases x <;> decide

theorem fallW_eq (d w ps : Nat) (r : Int) (j b ca : Nat) (cmd : RTCCommandData)
    (ctl : Nat) (t : List Nat) (hd : d ≤ 1) (hps : ps < 8) (hw : w < 8) :
    GBAGPIOWrite (rtcBus w ps 7 r j b ca cmd ctl t) GPIO_REG_DATA (4 ||| (d <<< 1)) =
      rtcBus (4 ||| (d <<< 1)) (4 ||| (d <<< 1)) 7 r j (setBitVal b j d) ca cmd ctl t := by
  have hps0 : ps &&& 65528 = 0 := lt8_and65528 ps hps
  have hw0 : w &&& 65528 = 0 := lt8_and65528 w hw
  interval_cases d <;>
    simp [rtcBus, GBAGPIOWrite, gpioWriteReg, readPins, rtcDispatch, gyroDispatch,
      rumbleDispatch, lightDispatch, rtcReadPins, rtcStep2, gpioEpilogue, compl16,
      GBACartridgeGPIO.p0, GBACartridgeGPIO.p1, GBACartridgeGPIO.p2,
      GBACartridgeGPIO.dir1, GPIO_REG_DATA, GPIO_RTC, GPIO_GYRO, GPIO_RUMBLE,
      GPIO_LIGHT_SENSOR, landLits, hps0, hw0]

theorem riseW_mid_eq (d : Nat) (r : Int) (j b ca : Nat) (cmd : RTCCommandData)
    (ctl : Nat) (t : List Nat) (hd : d ≤ 1) (hj : j < 7) :
    GBAGPIOWrite (rtcBus (4 ||| (d <<< 1)) (4 ||| (d <<< 1)) 7 r j b ca cmd ctl t)
      GPIO_REG_DATA (5 ||| (d <<< 1)) =
      rtcBus (5 ||| (d <<< 1)) (5 ||| (d <<< 1)) 7 r (j + 1) b ca cmd ctl t := by
  have h8 : j + 1 ≠ 8 := by omega
  interval_cases d <;>
    simp [rtcBus, GBAGPIOWrite, gpioWriteReg, readPins, rtcDispatch, gyroDispatch,
      rumbleDispatch, lightDispatch, rtcReadPins, rtcStep2, rtcIncBits, rtcWriteByteEnd,
      gpioEpilogue, compl16, GBACartridgeGPIO.p0, GBACartridgeGPIO.p1,
      GBACartridgeGPIO.p2, GBACartridgeGPIO.dir1, GPIO_REG_DATA, GPIO_RTC, GPIO_GYRO,
      GPIO_RUMBLE, GPIO_LIGHT_SENSOR, landLits, h8]

theorem riseW_end_eq (d : Nat) (r : Int) (b : Nat) (cmd : RTCCommandData) (ctl : Nat)
    (t : List Nat) (hd : d ≤ 1) :
    GBAGPIOWrite (rtcBus (4 ||| (d <<< 1)) (4 ||| (d <<< 1)) 7 r 7 b 1 cmd ctl t)
      GPIO_REG_DATA (5 ||| (d <<< 1)) =
      rtcBus (5 ||| (d <<< 1)) (5 ||| (d <<< 1)) 7 (r - 1) 0 0
        (if r - 1 = 0 then 0 else 1)
        ⟨cmd.magic, cmd.command, if r - 1 = 0 then 0 else cmd.reading⟩
        (if cmd.command = RTC_CONTROL then b % 256 else ctl) t := by
  obtain ⟨cm, cc, cr⟩ := cmd
  interval_cases d <;> by_cases hr : r - 1 = 0 <;> by_cases hc : cc = 4 <;>
    simp [rtcBus, GBAGPIOWrite, gpioWriteReg, readPins, rtcDispatch, gyroDispatch,
      rumbleDispatch, lightDispatch, rtcReadPins, rtcStep2, rtcIncBits, rtcWriteByteEnd,
      rtcProcessByte, rtcDecByte, rtcPayload, rtcByteTail, gpioEpilogue, compl16,
      GBACartridgeGPIO.p0, GBACartridgeGPIO.p1, GBACartridgeGPIO.p2,
      GBACartridgeGPIO.dir1, GPIO_REG_DATA, GPIO_RTC, GPIO_GYRO, GPIO_RUMBLE,
      GPIO_LIGHT_SENSOR, RTC_CONTROL, landLits, hr, hc]

theorem tickW_mid (d w ps : Nat) (r : Int) (j b ca : Nat) (cmd : RTCCommandData)
    (ctl : Nat) (t : List Nat) (hd : d ≤ 1) (hps : ps < 8) (hw : w < 8) (hj : j < 7) :
    tickW d (rtcBus w ps 7 r j b ca cmd ctl t) =
      rtcBus (5 ||| (d <<< 1)) (5 ||| (d <<< 1)) 7 r (j + 1) (setBitVal b j d) ca
        cmd ctl t := by
  unfold tickW
  rw [fallW_eq d w ps r j b ca cmd ctl t hd hps hw,
      riseW_mid_eq d r j (setBitVal b j d) ca cmd ctl t hd hj]

theorem tickW_end (d w ps : Nat) (r : Int) (b : Nat) (cmd : RTCCommandData)
    (ctl : Nat) (t : List Nat) (hd : d ≤ 1) (hps : ps < 8) (hw : w < 8) :
    tickW d (rtcBus w ps 7 r 7 b 1 cmd ctl t) =
      rtcBus (5 ||| (d <<< 1)) (5 ||| (d <<< 1)) 7 (r - 1) 0 0
        (if r - 1 = 0 then 0 else 1)
        ⟨cmd.magic, cmd.command, if r - 1 = 0 then 0 else cmd.reading⟩
        (if cmd.command = RTC_CONTROL then (setBitVal b 7 d) % 256 else ctl) t := by
  unfold tickW
  rw [fallW_eq d w ps r 7 b 1 cmd ctl t hd hps hw,
      riseW_end_eq d r (setBitVal b 7 d) cmd ctl t hd]

theorem exchangeW_eq (fb : Nat → Nat) (w ps : Nat) (r : Int) (cmd : RTCCommandData)
    (ctl : Nat) (t : List Nat) (hfb : ∀ k, fb k ≤ 1) (hps : ps < 8) (hw : w < 8) :
    exchangeW fb (rtcBus w ps 7 r 0 0 1 cmd ctl t) =
      rtcBus (5 ||| (fb 7 <<< 1)) (5 ||| (fb 7 <<< 1)) 7 (r - 1) 0 0
        (if r - 1 = 0 then 0 else 1)
        ⟨cmd.magic, cmd.command, if r - 1 = 0 then 0 else cmd.reading⟩
        (if cmd.command = RTC_CONTROL then wByte fb % 256 else ctl) t := by
  unfold exchangeW
  rw [tickW_mid (fb 0) w ps r 0 0 1 cmd ctl t (hfb 0) hps hw (by omega)]
  rw [tickW_mid (fb 1) _ _ r 1 _ 1 cmd ctl t (hfb 1) (or5lt8 _ (hfb 0)) (or5lt8 _ (hfb 0))
      (by omega)]
  rw [tickW_mid (fb 2) _ _ r 2 _ 1 cmd ctl t (hfb 2) (or5lt8 _ (hfb 1)) (or5lt8 _ (hfb 1))
      (by omega)]
  rw [tickW_mid (fb 3) _ _ r 3 _ 1 cmd ctl t (hfb 3) (or5lt8 _ (hfb 2)) (or5lt8 _ (hfb 2))
      (by omega)]
  rw [tickW_mid (fb 4) _ _ r 4 _ 1 cmd ctl t (hfb 4) (or5lt8 _ (hfb 3)) (or5lt8 _ (hfb 3))
      (by omega)]
  rw [tickW_mid (fb 5) _ _ r 5 _ 1 cmd ctl t (hfb 5) (or5lt8 _ (hfb 4)) (or5lt8 _ (hfb 4))
      (by omega)]
  rw [tickW_mid (fb 6) _ _ r 6 _ 1 cmd ctl t (hfb 6) (or5lt8 _ (hfb 5)) (or5lt8 _ (hfb 5))
      (by omega)]
  rw [tickW_end (fb 7) _ _ r _ cmd ctl t (hfb 7) (or5lt8 _ (hfb 6)) (or5lt8 _ (hfb 6))]
  simp [wByte]

theorem exchShape (f : Nat → Nat → Nat) (hf : ∀ a k, f a k ≤ 1) (r : Int)
    (cm cc rd2 ctl2 : Nat) (t : List Nat) (hr : 0 < r) :
    ∀ n : Nat, (n : Int) ≤ r → ∀ w ps : Nat, w < 8 → ps < 8 →
      ∃ w2 ps2 rd3 ctl3, w2 < 8 ∧ ps2 < 8 ∧
        exchRun f n (rtcBus w ps 7 r 0 0 1 ⟨cm, cc, rd2⟩ ctl2 t) =
          rtcBus w2 ps2 7 (r - n) 0 0 (if r - n = 0 then 0 else 1) ⟨cm, cc, rd3⟩ ctl3 t := by
  intro n
  induction n with
  | zero =>
    intro _ w ps hw hps
    refine ⟨w, ps, rd2, ctl2, hw, hps, ?_⟩
    simp [exchRun, show ¬ r = 0 from by omega]
  | succ n ih =>
    intro hn w ps hw hps
    have hn2 : (n : Int) ≤ r := by push_cast at hn ⊢; omega
    have hne : ¬ r - (n : Int) = 0 := by push_cast at hn; omega
    obtain ⟨w2, ps2, rd3, ctl3, hw2, hps2, heq⟩ := ih hn2 w ps hw hps
    refine ⟨5 ||| (f n 7 <<< 1), 5 ||| (f n 7 <<< 1),
      if r - ((n + 1 : Nat) : Int) = 0 then 0 else rd3,
      if cc = RTC_CONTROL then wByte (f n) % 256 else ctl3,
      or5lt8 _ (hf n 7), or5lt8 _ (hf n 7), ?_⟩
    have harith : r - (n : Int) - 1 = r - ((n + 1 : Nat) : Int) := by push_cast; ring
    simp only [exchRun]
    rw [heq, if_neg hne,
        exchangeW_eq (f n) w2 ps2 (r - n) ⟨cm, cc, rd3⟩ ctl3 t (hf n) hps2 hw2, harith]

set_option maxRecDepth 8000 in
/-- C6: command framing.  For every valid RTC command header byte
0x60 | (i << 1) | rd processed while no command is active:
(a) rtcProcessByte loads bytesRemaining from the command table entry for
i and commandActive becomes 1 exactly when that entry is nonzero;
(b) clocking the eight header bits into an idle bus in writing direction
lands the bus in the post-header state for i and rd; and (c) when the
entry is positive, during any run of complete byte exchanges with
arbitrary payload bits the command stays active through the first
entry - 1 exchanges and commandActive has returned to 0 after exactly
entry exchanges. -/
theorem c6_command_framing (i rd : Nat) (hi : i < 8) (hrd : rd ≤ 1)
    (f : Nat → Nat → Nat) (hf : ∀ a k, f a k ≤ 1)
    (ctl w : Nat) (t : List Nat) (hw : w < 8) :
    ((rtcProcessByte (rtcBus 5 5 7 0 0 (96 ||| (i <<< 1) ||| rd) 0 ⟨0, 0, 0⟩ 0
          [0, 0, 0, 0, 0, 0, 0])).rtc.bytesRemaining = rtcBytes i
      ∧ ((rtcProcessByte (rtcBus 5 5 7 0 0 (96 ||| (i <<< 1) ||| rd) 0 ⟨0, 0, 0⟩ 0
          [0, 0, 0, 0, 0, 0, 0])).rtc.commandActive = 1 ↔ rtcBytes i ≠ 0))
    ∧ (∃ ctl2 t2, exchangeW (fun k => ((96 ||| (i <<< 1) ||| rd) >>> k) &&& 1) preHdr
        = postHdr i rd ctl2 t2 5)
    ∧ (0 < rtcBytes i →
        (∀ n : Nat, (n : Int) < rtcBytes i →
          (exchRun f n (postHdr i rd ctl t w)).rtc.commandActive = 1)
        ∧ (exchRun f (rtcBytes i).toNat (postHdr i rd ctl t w)).rtc.commandActive = 0) := by
  refine ⟨?_, ?_, ?_⟩
  · interval_cases i <;> interval_cases rd <;> exact ⟨by decide, by decide⟩
  · interval_cases i <;> interval_cases rd <;>
      first
        | exact ⟨0, [0, 0, 0, 0, 0, 0, 0], by decide⟩
        | exact ⟨64, [0, 1, 0, 0, 0, 0, 0], by decide⟩
        | exact ⟨64, [0, 0, 0, 0, 0, 0, 0], by decide⟩
  · intro h0
    have hne0 : ¬ rtcBytes i = 0 := by omega
    have hpost : postHdr i rd ctl t w =
        rtcBus w 5 7 (rtcBytes i) 0 0 1 ⟨6, i, rd⟩ ctl t := by
      simp [postHdr, h0, hne0]
    constructor
    · intro n hn
      obtain ⟨w2, ps2, rd3, ctl3, hw2, hps2, heq⟩ :=
        exchShape f hf (rtcBytes i) 6 i rd ctl t h0 n (by omega) w 5 hw (by omega)
      rw [hpost, heq]
      simp [rtcBus, show ¬ rtcBytes i - (n : Int) = 0 from by omega]
    · obtain ⟨w2, ps2, rd3, ctl3, hw2, hps2, heq⟩ :=
        exchShape f hf (rtcBytes i) 6 i rd ctl t h0 (rtcBytes i).toNat (by omega) w 5 hw
          (by omega)
      rw [hpost, heq]
      simp [rtcBus, Int.toNat_of_nonneg h0.le]

/-- C6 witness: the framing property evaluated at the DATETIME command
(index 2, seven payload bytes), reading flag 1, all-ones payload bits. -/
theorem c6_command_framing_witness :
    ((rtcProcessByte (rtcBus 5 5 7 0 0 (96 ||| (2 <<< 1) ||| 1) 0 ⟨0, 0, 0⟩ 0
          [0, 0, 0, 0, 0, 0, 0])).rtc.bytesRemaining = rtcBytes 2
      ∧ ((rtcProcessByte (rtcBus 5 5 7 0 0 (96 ||| (2 <<< 1) ||| 1) 0 ⟨0, 0, 0⟩ 0
          [0, 0, 0, 0, 0, 0, 0])).rtc.commandActive = 1 ↔ rtcBytes 2 ≠ 0))
    ∧ (∃ ctl2 t2, exchangeW (fun k => ((96 ||| (2 <<< 1) ||| 1) >>> k) &&& 1) preHdr
        = postHdr 2 1 ctl2 t2 5)
    ∧ (0 < rtcBytes 2 →
        (∀ n : Nat, (n : Int) < rtcBytes 2 →
          (exchRun (fun _ _ => 1) n
            (postHdr 2 1 64 [0, 0, 0, 0, 0, 0, 0] 5)).rtc.commandActive = 1)
        ∧ (exchRun (fun _ _ => 1) (rtcBytes 2).toNat
            (postHdr 2 1 64 [0, 0, 0, 0, 0, 0, 0] 5)).rtc.commandActive = 0) :=
  c6_command_framing 2 1 (by decide) (by decide) (fun _ _ => 1) (fun _ _ => le_refl 1)
    64 5 [0, 0, 0, 0, 0, 0, 0] (by decide)
